import Mathlib

/-!
Verification of the motion-video synthesis and transition-compositing
pipeline of vision-forge-ai, shallowly embedded from
`src/app/services/video.py`, `src/app/services/motion.py`,
`src/app/utils/media.py` and `src/app/utils/video_filters.py`.
Durations and the values interpolated into filter expressions are
modelled as rational numbers.
-/

namespace VisionForge

/-- Python `min` on two rationals, written as an `if` so that it reduces in
the kernel. -/
def pyMin (a b : ℚ) : ℚ := if a ≤ b then a else b

/-- Python `max` on two rationals, written as an `if` so that it reduces in
the kernel. -/
def pyMax (a b : ℚ) : ℚ := if a ≤ b then b else a

lemma pyMin_eq (a b : ℚ) : pyMin a b = min a b := by rw [pyMin, min_def]

lemma pyMax_eq (a b : ℚ) : pyMax a b = max a b := by rw [pyMax, max_def]

/-- `MAX_VIDEOS_PER_CHUNK` from `app/services/video.py` line 24. -/
def MAX_VIDEOS_PER_CHUNK : ℕ := 4

/-- One transition of the chained filter-graph combine: the clamped
crossfade duration `safe_transition` and the xfade `offset`
(`app/services/video.py` lines 373-374). -/
structure TransitionStep where
  safe : ℚ
  offset : ℚ
deriving DecidableEq, Repr, Inhabited

/-- `safe_transition = min(transition_duration, durations[i - 1] * 0.5, 2.0)`
(`app/services/video.py` line 373). -/
def safe_transition (transitionDuration prevDuration : ℚ) : ℚ :=
  pyMin (pyMin transitionDuration (prevDuration * (1/2))) 2

/-- `safe_transition = min(transition_duration, current_duration * 0.33, 1.5)`
of the sequential fallback combiner (`app/services/video.py` line 459). -/
def safe_transition_simple (transitionDuration currentDuration : ℚ) : ℚ :=
  pyMin (pyMin transitionDuration (currentDuration * (33/100))) (3/2)

/-- The loop of `_combine_videos_with_transitions` over pairs
(`app/services/video.py` lines 366-389): `prev` is `durations[i - 1]`,
`current` the running `current_duration`; yields the list of transition
steps together with the final tracked duration. -/
def combineLoop (t : ℚ) : ℚ → ℚ → List ℚ → List TransitionStep × ℚ
  | _, current, [] => ([], current)
  | prev, current, d :: rest =>
    let s := safe_transition t prev
    let off := pyMax 0 (current - s)
    let r := combineLoop t d (current + d - s) rest
    (⟨s, off⟩ :: r.1, r.2)

/-- Transition schedule of `_combine_videos_with_transitions` over the probed
durations: `current_duration` starts at `durations[0]`
(`app/services/video.py` line 363). -/
def combineTransitionSchedule (t : ℚ) (durations : List ℚ) :
    List TransitionStep × ℚ :=
  match durations with
  | [] => ([], 0)
  | d :: rest => combineLoop t d d rest

/-- The recurrence stated by claim C2, written from its words: the cumulative
duration starts at the first clip duration, the offset of each pair is
`max 0 (C - safe)`, and the cumulative duration is then advanced by the next
clip duration minus the safe transition. -/
def claimedSchedule (t : ℚ) : ℚ → ℚ → List ℚ → List TransitionStep
  | _, _, [] => []
  | c, dprev, d :: rest =>
    let s := min (min t (dprev * (1/2))) 2
    ⟨s, max 0 (c - s)⟩ :: claimedSchedule t (c + d - s) d rest

lemma combineLoop_fst_eq_claimed (t : ℚ) :
    ∀ (rest : List ℚ) (prev current : ℚ),
      (combineLoop t prev current rest).1 = claimedSchedule t current prev rest := by
  intro rest
  induction rest with
  | nil => intro prev current; rfl
  | cons d rest ih =>
      intro prev current
      simp only [combineLoop, claimedSchedule, safe_transition, pyMin_eq, pyMax_eq,
        List.cons.injEq, true_and]
      exact ih d _

lemma combineLoop_snd (t : ℚ) :
    ∀ (rest : List ℚ) (prev current : ℚ),
      (combineLoop t prev current rest).2 =
        current + rest.sum -
          ((combineLoop t prev current rest).1.map TransitionStep.safe).sum := by
  intro rest
  induction rest with
  | nil => intro prev current; simp [combineLoop]
  | cons d rest ih =>
      intro prev current
      simp only [combineLoop, List.map_cons, List.sum_cons, List.sum_nil]
      rw [ih d (current + d - safe_transition t prev)]
      ring

lemma combineLoop_length (t : ℚ) :
    ∀ (rest : List ℚ) (prev current : ℚ),
      (combineLoop t prev current rest).1.length = rest.length := by
  intro rest
  induction rest with
  | nil => intro prev current; rfl
  | cons d rest ih =>
      intro prev current
      simp only [combineLoop, List.length_cons]
      rw [ih d _]

lemma combineLoop_getD_safe (t : ℚ) :
    ∀ (rest : List ℚ) (prev current : ℚ) (j : ℕ), j < rest.length →
      ((combineLoop t prev current rest).1.getD j default).safe =
        safe_transition t ((prev :: rest).getD j 0) := by
  intro rest
  induction rest with
  | nil => intro prev current j h; exact absurd h (Nat.not_lt_zero j)
  | cons d rest ih =>
      intro prev current j h
      cases j with
      | zero => rfl
      | succ j =>
          simp only [combineLoop, List.getD_cons_succ]
          exact ih d _ j (Nat.lt_of_succ_lt_succ h)

/-- Claim C1 (amended): each safe transition computed by the chained
filter-graph combine is at most the requested transition duration, at most
half of the PRECEDING clip duration, and at most the hard cap of 2 seconds;
it is not bounded by the duration of the following clip. -/
theorem c1_safe_transition_bounds (t : ℚ) (ds : List ℚ) (j : ℕ)
    (h : j < (combineTransitionSchedule t ds).1.length) :
    ((combineTransitionSchedule t ds).1.getD j default).safe ≤ t ∧
    ((combineTransitionSchedule t ds).1.getD j default).safe ≤ ds.getD j 0 * (1/2) ∧
    ((combineTransitionSchedule t ds).1.getD j default).safe ≤ 2 := by
  match ds with
  | [] =>
      simp only [combineTransitionSchedule, List.length_nil] at h
      exact absurd h (Nat.not_lt_zero j)
  | d :: rest =>
      simp only [combineTransitionSchedule, combineLoop_length] at h
      have hs := combineLoop_getD_safe t rest d d j h
      simp only [combineTransitionSchedule]
      rw [hs]
      unfold safe_transition
      rw [pyMin_eq, pyMin_eq]
      refine ⟨le_trans (min_le_left _ _) (min_le_left _ _), ?_, min_le_right _ _⟩
      exact le_trans (min_le_left _ _) (min_le_right _ _)

/-- Witness for claim C1: concrete instance at requested duration 1 over the
clip durations 3 and 4. -/
theorem c1_safe_transition_bounds_witness :
    ((combineTransitionSchedule 1 [3, 4]).1.getD 0 default).safe ≤ 1 ∧
    ((combineTransitionSchedule 1 [3, 4]).1.getD 0 default).safe ≤
      [(3 : ℚ), 4].getD 0 0 * (1/2) ∧
    ((combineTransitionSchedule 1 [3, 4]).1.getD 0 default).safe ≤ 2 :=
  c1_safe_transition_bounds 1 [3, 4] 0 (by decide)

/-- Counterexample to claim C1 as stated: with positive clip durations 10 and
1 and requested transition duration 2, the computed safe transition is 2,
which exceeds half of the shorter neighbouring clip duration. -/
theorem c1_counterexample :
    (0 : ℚ) < 10 ∧ (0 : ℚ) < 1 ∧
    ((combineTransitionSchedule 2 [10, 1]).1.getD 0 default).safe = 2 ∧
    ¬ ((combineTransitionSchedule 2 [10, 1]).1.getD 0 default).safe ≤
        1/2 * min (10 : ℚ) 1 := by
  have h : ((combineTransitionSchedule 2 [10, 1]).1.getD 0 default).safe = 2 := by
    with_unfolding_all rfl
  refine ⟨by norm_num, by norm_num, h, ?_⟩
  rw [h, min_def]
  norm_num

/-- Claim C2: the steps of the chained combine satisfy exactly the claimed
recurrence (offset of pair i is `max 0 (C - safe)` with the cumulative
duration starting at the first clip duration and decremented by each safe
transition), and the final tracked duration equals the sum of all durations
minus the sum of all safe transitions. -/
theorem c2_offsets_and_total_duration (t d0 : ℚ) (rest : List ℚ) :
    (combineTransitionSchedule t (d0 :: rest)).1 = claimedSchedule t d0 d0 rest ∧
    (combineTransitionSchedule t (d0 :: rest)).2 =
      (d0 :: rest).sum -
        ((combineTransitionSchedule t (d0 :: rest)).1.map TransitionStep.safe).sum := by
  constructor
  · exact combineLoop_fst_eq_claimed t rest d0 d0
  · simp only [combineTransitionSchedule, List.sum_cons]
    rw [combineLoop_snd t rest d0 d0]

/-- The chunk slicing of `_combine_videos_in_chunks`
(`app/services/video.py` lines 296-298): successive slices
`video_paths[i : i + MAX_VIDEOS_PER_CHUNK]` with the chunk size fixed at 4. -/
def chunkSlices {α : Type} : List α → List (List α)
  | [] => []
  | [a] => [[a]]
  | [a, b] => [[a, b]]
  | [a, b, c] => [[a, b, c]]
  | a :: b :: c :: d :: rest => [a, b, c, d] :: chunkSlices rest

/-- Input sizes of every combine invocation performed for `n` clips: for
`n ≤ MAX_VIDEOS_PER_CHUNK` a single direct combine
(`app/services/video.py` lines 275-283); otherwise one leaf combine per
chunk slice followed, when there is more than one chunk result, by a single
non-recursive combine over all chunk outputs (lines 296-331). -/
def combineInvocationSizes (n : ℕ) : List ℕ :=
  if n ≤ MAX_VIDEOS_PER_CHUNK then [n]
  else
    let leaves := (chunkSlices (List.range n)).map List.length
    leaves ++ (if leaves.length ≤ 1 then [] else [leaves.length])

lemma chunkSlices_flatten {α : Type} : ∀ (xs : List α), (chunkSlices xs).flatten = xs
  | [] => rfl
  | [_] => rfl
  | [_, _] => rfl
  | [_, _, _] => rfl
  | a :: b :: c :: d :: rest => by
      simp only [chunkSlices, List.flatten_cons, List.cons_append, List.nil_append,
        List.cons.injEq, true_and]
      exact chunkSlices_flatten rest

lemma chunkSlices_mem {α : Type} :
    ∀ (xs : List α), ∀ c ∈ chunkSlices xs, c.length ≤ 4 ∧ c ≠ []
  | [], c, hc => absurd hc (List.not_mem_nil c)
  | [a], c, hc => by
      rw [List.mem_singleton.mp hc]; exact ⟨by norm_num, by simp⟩
  | [a, b], c, hc => by
      rw [List.mem_singleton.mp hc]; exact ⟨by norm_num, by simp⟩
  | [a, b, c0], c, hc => by
      rw [List.mem_singleton.mp hc]; exact ⟨by norm_num, by simp⟩
  | a :: b :: c0 :: d :: rest, c, hc => by
      rcases List.mem_cons.mp hc with h | h
      · rw [h]; exact ⟨by norm_num, by simp⟩
      · exact chunkSlices_mem rest c h

lemma chunkSlices_length {α : Type} :
    ∀ (xs : List α), (chunkSlices xs).length = (xs.length + 3) / 4
  | [] => by simp [chunkSlices]
  | [_] => by simp [chunkSlices]
  | [_, _] => by simp [chunkSlices]
  | [_, _, _] => by simp [chunkSlices]
  | a :: b :: c :: d :: rest => by
      simp only [chunkSlices, List.length_cons]
      rw [chunkSlices_length rest]
      omega

lemma chunkSlices_range_length (n : ℕ) :
    ((chunkSlices (List.range n)).map List.length).length = (n + 3) / 4 := by
  rw [List.length_map, chunkSlices_length, List.length_range]

/-- Claim C3 (amended): the chunked combine partitions the clip list into
`ceil(n / 4)` ordered chunks of at most `MAX_VIDEOS_PER_CHUNK` clips whose
concatenation is the original list, combines each chunk, and then combines
all chunk outputs in one SINGLE non-recursive invocation of size
`ceil(n / 4)`; consequently every invocation stays within `MAX_VIDEOS_PER_CHUNK`
only for `n ≤ 16`, and for 9 clips there are exactly 3 leaf combines of sizes
4, 4, 1 followed by one combine over the 3 chunk outputs. -/
theorem c3_chunked_combine (α : Type) (xs : List α) :
    (chunkSlices xs).flatten = xs ∧
    (∀ c ∈ chunkSlices xs, c.length ≤ MAX_VIDEOS_PER_CHUNK ∧ c ≠ []) ∧
    (chunkSlices xs).length = (xs.length + 3) / 4 ∧
    combineInvocationSizes 9 = [4, 4, 1, 3] ∧
    (∀ n, MAX_VIDEOS_PER_CHUNK < n → n ≤ 16 →
      ∀ m ∈ combineInvocationSizes n, m ≤ MAX_VIDEOS_PER_CHUNK) ∧
    (∀ n, MAX_VIDEOS_PER_CHUNK < n →
      combineInvocationSizes n =
        ((chunkSlices (List.range n)).map List.length) ++ [(n + 3) / 4]) := by
  refine ⟨chunkSlices_flatten xs, chunkSlices_mem xs, chunkSlices_length xs,
    by decide, ?_, ?_⟩
  · intro n h1 h2
    interval_cases n <;> decide
  · intro n h1
    have hlen := chunkSlices_range_length n
    have h2 : ¬ n ≤ MAX_VIDEOS_PER_CHUNK := Nat.not_le_of_lt h1
    have h4 : ¬ ((n + 3) / 4 ≤ 1) := by
      unfold MAX_VIDEOS_PER_CHUNK at h2
      omega
    simp only [combineInvocationSizes, if_neg h2, hlen, if_neg h4]

/-- Witness for claim C3: the concrete instance with 9 clips. -/
theorem c3_chunked_combine_witness :
    (chunkSlices (List.range 9)).flatten = List.range 9 ∧
    combineInvocationSizes 9 = [4, 4, 1, 3] ∧
    (4 : ℕ) ∈ combineInvocationSizes 5 ∧ (4 : ℕ) ≤ MAX_VIDEOS_PER_CHUNK ∧
    combineInvocationSizes 17 =
      ((chunkSlices (List.range 17)).map List.length) ++ [(17 + 3) / 4] :=
  ⟨(c3_chunked_combine ℕ (List.range 9)).1,
   (c3_chunked_combine ℕ (List.range 9)).2.2.2.1,
   by decide,
   (c3_chunked_combine ℕ []).2.2.2.2.1 5 (by decide) (by decide) 4 (by decide),
   (c3_chunked_combine ℕ []).2.2.2.2.2 17 (by decide)⟩

/-- Counterexample to claim C3 as stated: for 17 clips the second-level
combine receives all 5 chunk outputs in a single invocation, exceeding
`MAX_VIDEOS_PER_CHUNK`; the chunk-output list is not split recursively. -/
theorem c3_counterexample :
    combineInvocationSizes 17 = [4, 4, 4, 4, 1, 5] ∧
    (5 : ℕ) ∈ combineInvocationSizes 17 ∧
    MAX_VIDEOS_PER_CHUNK < 5 := by
  refine ⟨by decide, by decide, by decide⟩

/-- `total_transition_time = transition_duration * (len(scripts) - 1)` when
there is more than one segment, else 0 (`app/services/video.py`
lines 72-76). -/
def total_transition_time (t : ℚ) (n : ℕ) : ℚ :=
  if 1 < n then t * ((n : ℚ) - 1) else 0

/-- `adjusted_audio_duration = max(audio_duration - total_transition_time,
audio_duration * 0.9)` (`app/services/video.py` lines 77-79). -/
def adjusted_audio_duration (audio t : ℚ) (n : ℕ) : ℚ :=
  pyMax (audio - total_transition_time t n) (audio * (9/10))

/-- The text-proportional duration allocation loop of `create_simple_video`
(`app/services/video.py` lines 81-93), with each script abstracted to its
character count: proportional share of the adjusted audio duration when
there are characters, else equal division, then the 2.0-second floor. -/
def segment_durations (scripts : List ℕ) (audio t : ℚ) : List ℚ :=
  let totalChars := scripts.sum
  let adj := adjusted_audio_duration audio t scripts.length
  scripts.map fun (len : ℕ) =>
    let d := if 0 < totalChars then adj * ((len : ℚ) / (totalChars : ℚ))
             else adj / (scripts.length : ℚ)
    pyMax d 2

/-- Claim C4: with a positive total character count, each allocated duration
is exactly the adjusted total available duration times the share of the
segment in the total script length, floored at 2 seconds afterwards and with
no renormalization; in the 10/20/30-character scenario with 60 seconds of
audio and 1-second transitions the allocation is [29/3, 58/3, 29], within
1 second of [10, 20, 30] and everywhere above the floor. -/
theorem c4_text_proportional_allocation :
    (∀ (scripts : List ℕ) (audio t : ℚ), 0 < scripts.sum →
      segment_durations scripts audio t =
        scripts.map fun (len : ℕ) =>
          pyMax (adjusted_audio_duration audio t scripts.length *
            ((len : ℚ) / (scripts.sum : ℚ))) 2) ∧
    segment_durations [10, 20, 30] 60 1 = [29/3, 58/3, 29] ∧
    (∀ p ∈ (segment_durations [10, 20, 30] 60 1).zip [(10 : ℚ), 20, 30],
      |p.1 - p.2| ≤ 1 ∧ 2 < p.1) := by
  refine ⟨?_, by with_unfolding_all decide, ?_⟩
  · intro scripts audio t h
    simp only [segment_durations, if_pos h]
  · intro p hp
    have he : (segment_durations [10, 20, 30] 60 1).zip [(10 : ℚ), 20, 30] =
        [(29/3, 10), (58/3, 20), (29, 30)] := by with_unfolding_all decide
    rw [he] at hp
    simp only [List.mem_cons, List.not_mem_nil, or_false] at hp
    rcases hp with h | h | h
    · rw [h]; constructor <;> [skip; norm_num]
      rw [abs_le]; constructor <;> norm_num
    · rw [h]; constructor <;> [skip; norm_num]
      rw [abs_le]; constructor <;> norm_num
    · rw [h]; constructor <;> [skip; norm_num]
      rw [abs_le]; constructor <;> norm_num

/-- Witness for claim C4: the proportional formula instantiated on the
10/20/30-character scenario and the first zipped pair. -/
theorem c4_text_proportional_allocation_witness :
    segment_durations [10, 20, 30] 60 1 =
      ([10, 20, 30] : List ℕ).map (fun (len : ℕ) =>
        pyMax (adjusted_audio_duration 60 1 ([10, 20, 30] : List ℕ).length *
          ((len : ℚ) / (([10, 20, 30] : List ℕ).sum : ℚ))) 2) ∧
    |(29/3 : ℚ) - 10| ≤ 1 ∧ 2 < (29/3 : ℚ) :=
  ⟨(c4_text_proportional_allocation).1 [10, 20, 30] 60 1 (by decide),
   (c4_text_proportional_allocation).2.2 (29/3, 10) (by with_unfolding_all decide)⟩

lemma sum_ge_two_mul_length : ∀ (l : List ℚ), (∀ x ∈ l, 2 ≤ x) →
    (l.length : ℚ) * 2 ≤ l.sum
  | [], _ => by simp
  | x :: l, h => by
      have hx : 2 ≤ x := h x (List.mem_cons_self x l)
      have hl := sum_ge_two_mul_length l (fun y hy => h y (List.mem_cons_of_mem x hy))
      simp only [List.length_cons, List.sum_cons]
      push_cast
      linarith

/-- Claim C5: every duration produced by the text-proportional allocator is
at least the 2.0-second floor, hence the allocated total is at least 2.0
times the number of segments. -/
theorem c5_minimum_floor (scripts : List ℕ) (audio t : ℚ) :
    (∀ d ∈ segment_durations scripts audio t, 2 ≤ d) ∧
    (scripts.length : ℚ) * 2 ≤ (segment_durations scripts audio t).sum := by
  have hmem : ∀ d ∈ segment_durations scripts audio t, 2 ≤ d := by
    intro d hd
    simp only [segment_durations, List.mem_map] at hd
    obtain ⟨len, _, hlen⟩ := hd
    rw [← hlen, pyMax_eq]
    exact le_max_right _ _
  refine ⟨hmem, ?_⟩
  have h2 := sum_ge_two_mul_length (segment_durations scripts audio t) hmem
  have hlen : (segment_durations scripts audio t).length = scripts.length := by
    simp only [segment_durations, List.length_map]
  rw [hlen] at h2
  exact h2

/-- Witness for claim C5: concrete instance with one 5-character script,
10 seconds of audio and 1-second transitions. -/
theorem c5_minimum_floor_witness :
    ((10 : ℚ) ∈ segment_durations [5] 10 1 → 2 ≤ (10 : ℚ)) ∧
    ((1 : ℕ) : ℚ) * 2 ≤ (segment_durations [5] 10 1).sum :=
  ⟨fun h => (c5_minimum_floor [5] 10 1).1 10 h,
   by simpa using (c5_minimum_floor [5] 10 1).2⟩

/-- `settings.FFMPEG_PATH`, default value from `app/core/config.py` line 23. -/
def FFMPEG_PATH : String := "ffmpeg"

/-- The `hw_config` dictionary built by `detect_hardware_acceleration`
(`app/utils/media.py` lines 35-42); `none` models the Python `None` fields. -/
structure HwConfig where
  available : Bool
  nvidia : Bool
  intel : Bool
  encoder : Option String
  decoder : Option String
  hwaccel : Option String
deriving DecidableEq, Repr

/-- Initial all-disabled configuration (`app/utils/media.py` lines 35-42). -/
def initialHwConfig : HwConfig := ⟨false, false, false, none, none, none⟩

/-- Configuration set when the NVENC trial encode exits 0
(`app/utils/media.py` lines 72-78). -/
def nvidiaHwConfig : HwConfig :=
  ⟨true, true, false, some "h264_nvenc", some "h264_cuvid", some "cuda"⟩

/-- Configuration set when the QSV trial encode exits 0
(`app/utils/media.py` lines 101-109). -/
def intelHwConfig : HwConfig :=
  ⟨true, false, true, some "h264_qsv", some "h264_qsv", some "qsv"⟩

/-- Outcome of one `subprocess.run` trial encode: the process either raised
before completing or exited with a return code. -/
inductive SubprocResult where
  | raised : SubprocResult
  | exited : ℤ → SubprocResult
deriving DecidableEq, Repr

/-- Environment observed by the capability probe: whether the encoder binary
is on the PATH, whether listing the encoders raised (`none`) or reported
NVENC/QSV support, and the two trial-encode outcomes. -/
structure ProbeEnv where
  ffmpegOnPath : Bool
  encodersListing : Option (Bool × Bool)
  nvencTest : SubprocResult
  qsvTest : SubprocResult
deriving DecidableEq, Repr

/-- Second-priority QSV check of `detect_hardware_acceleration`
(`app/utils/media.py` lines 85-113): run only while `available` is still
false; a raised trial is caught by the outer `except`, which returns the
untouched configuration. -/
def qsvBranch (qsvListed : Bool) (test : SubprocResult) : HwConfig :=
  if qsvListed then
    match test with
    | .raised => initialHwConfig
    | .exited rc => if rc = 0 then intelHwConfig else initialHwConfig
  else initialHwConfig

/-- `detect_hardware_acceleration` (`app/utils/media.py` lines 33-122): any
raised probing error or failed trial leaves the initial all-disabled
configuration; NVENC is tried before QSV and a NVENC success skips QSV. -/
def detect_hardware_acceleration (env : ProbeEnv) : HwConfig :=
  if env.ffmpegOnPath then
    match env.encodersListing with
    | none => initialHwConfig
    | some (nvencListed, qsvListed) =>
      if nvencListed then
        match env.nvencTest with
        | .raised => initialHwConfig
        | .exited rc =>
          if rc = 0 then nvidiaHwConfig
          else qsvBranch qsvListed env.qsvTest
      else qsvBranch qsvListed env.qsvTest
  else initialHwConfig

/-- `["-hwaccel", HW_ACCEL["hwaccel"]]` added only when acceleration is
available (`app/services/video.py` lines 344-345). -/
def hwaccelFlags (hw : HwConfig) : List String :=
  if hw.available then ["-hwaccel", hw.hwaccel.getD ""] else []

/-- Video encoder options of `_combine_videos_with_transitions`
(`app/services/video.py` lines 398-405): the hardware encoder with
vendor-specific presets when available, else software libx264. -/
def videoEncoderFlags (hw : HwConfig) : List String :=
  if hw.available then
    ["-c:v", hw.encoder.getD ""] ++
      (if hw.nvidia then ["-preset", "p4", "-b:v", "6M"]
       else if hw.intel then ["-preset", "medium", "-b:v", "6M"]
       else [])
  else ["-c:v", "libx264", "-crf", "22", "-preset", "medium"]

/-- Video encoder options of `_combine_videos_simple_transitions`
(`app/services/video.py` lines 477-480). -/
def simpleVideoEncoderFlags (hw : HwConfig) : List String :=
  if hw.available then ["-c:v", hw.encoder.getD ""]
  else ["-c:v", "libx264", "-preset", "fast", "-crf", "23"]

/-- The `["-i", path]` pairs for all input files
(`app/services/video.py` lines 348-349). -/
def inputFlags (paths : List String) : List String :=
  (paths.map fun p => ["-i", p]).flatten

/-- The per-pair filter strings of the `filter_complex` loop
(`app/services/video.py` lines 366-389), threading the index, the previous
and running durations and the last stream labels. -/
def filterLoop (t : ℚ) : ℕ → ℚ → ℚ → String → String → List ℚ →
    List String × String × String
  | _, _, _, lastV, lastA, [] => ([], lastV, lastA)
  | i, prev, current, lastV, lastA, d :: rest =>
    let s := safe_transition t prev
    let off := pyMax 0 (current - s)
    let parts := [
      "[" ++ toString i ++ ":v]setpts=PTS-STARTPTS[v" ++ toString i ++ "]",
      "[" ++ toString i ++ ":a]asetpts=PTS-STARTPTS[a" ++ toString i ++ "]",
      "[" ++ lastV ++ "][v" ++ toString i ++ "]xfade=transition=fade:duration=" ++
        toString s ++ ":offset=" ++ toString off ++ "[v" ++ toString i ++ "out]",
      "[" ++ lastA ++ "][a" ++ toString i ++ "]acrossfade=d=" ++ toString s ++
        "[a" ++ toString i ++ "out]"]
    let r := filterLoop t (i + 1) d (current + d - s)
      ("v" ++ toString i ++ "out") ("a" ++ toString i ++ "out") rest
    (parts ++ r.1, r.2)

/-- The full `filter_complex` string plus the final stream labels
(`app/services/video.py` lines 351-395). -/
def filterComplexParts (t : ℚ) (ds : List ℚ) : List String × String × String :=
  let d0 := ds.headD 0
  let r := filterLoop t 1 d0 d0 "v0" "a0" ds.tail
  ("[0:v]setpts=PTS-STARTPTS[v0]" :: "[0:a]asetpts=PTS-STARTPTS[a0]" :: r.1,
   r.2)

/-- `["-filter_complex", ...]` and the two `-map` arguments
(`app/services/video.py` lines 392-395). -/
def filterMapFlags (ds : List ℚ) (t : ℚ) : List String :=
  let r := filterComplexParts t ds
  ["-filter_complex", String.intercalate ";" r.1,
   "-map", "[" ++ r.2.1 ++ "]", "-map", "[" ++ r.2.2 ++ "]"]

/-- Audio encoding options and output path
(`app/services/video.py` line 408). -/
def audioOutFlags (out : String) : List String :=
  ["-c:a", "aac", "-b:a", "192k", "-movflags", "+faststart", out]

/-- The complete command built by `_combine_videos_with_transitions`
(`app/services/video.py` lines 341-408). -/
def buildTransitionsCmd (hw : HwConfig) (paths : List String) (ds : List ℚ)
    (t : ℚ) (out : String) : List String :=
  [FFMPEG_PATH, "-y"] ++ hwaccelFlags hw ++ inputFlags paths ++
    filterMapFlags ds t ++ videoEncoderFlags hw ++ audioOutFlags out

/-- One pairwise command built by `_combine_videos_simple_transitions`
(`app/services/video.py` lines 453-483). -/
def buildSimpleXfadeCmd (hw : HwConfig) (currentVideo nextVideo : String)
    (currentDuration t : ℚ) (outTemp : String) : List String :=
  let s := safe_transition_simple t currentDuration
  let off := pyMax 0 (currentDuration - s)
  [FFMPEG_PATH, "-y", "-i", currentVideo, "-i", nextVideo, "-filter_complex",
   "xfade=transition=fade:duration=" ++ toString s ++ ":offset=" ++ toString off] ++
   simpleVideoEncoderFlags hw ++ ["-c:a", "aac", "-b:a", "192k", outTemp]

lemma detect_cases (env : ProbeEnv) :
    detect_hardware_acceleration env = initialHwConfig ∨
    detect_hardware_acceleration env = nvidiaHwConfig ∨
    detect_hardware_acceleration env = intelHwConfig := by
  have hq : ∀ (b : Bool) (r : SubprocResult),
      qsvBranch b r = initialHwConfig ∨ qsvBranch b r = intelHwConfig := by
    intro b r
    cases b
    · exact Or.inl (by simp [qsvBranch])
    · rcases r with _ | rc
      · exact Or.inl (by simp [qsvBranch])
      · by_cases hrc : rc = 0
        · exact Or.inr (by simp [qsvBranch, hrc])
        · exact Or.inl (by simp [qsvBranch, hrc])
  unfold detect_hardware_acceleration
  rcases env with ⟨fp, el, nt, qt⟩
  dsimp only
  split
  · rcases el with _ | ⟨nl, ql⟩
    · exact Or.inl rfl
    · dsimp only
      split
      · rcases nt with _ | rc
        · exact Or.inl rfl
        · dsimp only
          split
          · exact Or.inr (Or.inl rfl)
          · rcases hq ql qt with h | h
            · exact Or.inl h
            · exact Or.inr (Or.inr h)
      · rcases hq ql qt with h | h
        · exact Or.inl h
        · exact Or.inr (Or.inr h)
  · exact Or.inl rfl

/-- Claim C6: whenever the capability probe reports no acceleration (which
includes every raised probing error), the encoder, decoder and hwaccel
fields are all empty; and every combine command built with an unavailable
configuration carries no hardware-acceleration flags and selects the
software encoder libx264 in both the chained and the sequential path. -/
theorem c6_software_fallback :
    (∀ env : ProbeEnv, (detect_hardware_acceleration env).available = false →
      (detect_hardware_acceleration env).encoder = none ∧
      (detect_hardware_acceleration env).decoder = none ∧
      (detect_hardware_acceleration env).hwaccel = none) ∧
    (∀ hw : HwConfig, hw.available = false →
      hwaccelFlags hw = [] ∧
      videoEncoderFlags hw = ["-c:v", "libx264", "-crf", "22", "-preset", "medium"] ∧
      simpleVideoEncoderFlags hw =
        ["-c:v", "libx264", "-preset", "fast", "-crf", "23"] ∧
      ∀ (paths : List String) (ds : List ℚ) (t : ℚ) (out : String),
        buildTransitionsCmd hw paths ds t out =
          [FFMPEG_PATH, "-y"] ++ inputFlags paths ++ filterMapFlags ds t ++
            ["-c:v", "libx264", "-crf", "22", "-preset", "medium"] ++
            audioOutFlags out) := by
  constructor
  · intro env h
    rcases detect_cases env with he | he | he <;> rw [he] <;> rw [he] at h
    · exact ⟨rfl, rfl, rfl⟩
    · exact absurd h (by simp [nvidiaHwConfig])
    · exact absurd h (by simp [intelHwConfig])
  · intro hw h
    have hav : hw.available = false := h
    refine ⟨?_, ?_, ?_, ?_⟩
    · simp [hwaccelFlags, hav]
    · simp [videoEncoderFlags, hav]
    · simp [simpleVideoEncoderFlags, hav]
    · intro paths ds t out
      simp [buildTransitionsCmd, hwaccelFlags, videoEncoderFlags, hav]

/-- Witness for claim C6: the probe environment in which the encoder listing
raised, and the resulting all-disabled configuration driving a concrete
two-clip combine command. -/
theorem c6_software_fallback_witness :
    ((detect_hardware_acceleration ⟨true, none, .raised, .raised⟩).encoder = none ∧
     (detect_hardware_acceleration ⟨true, none, .raised, .raised⟩).decoder = none ∧
     (detect_hardware_acceleration ⟨true, none, .raised, .raised⟩).hwaccel = none) ∧
    hwaccelFlags initialHwConfig = [] ∧
    buildTransitionsCmd initialHwConfig ["a.mp4", "b.mp4"] [3, 4] 1 "out.mp4" =
      [FFMPEG_PATH, "-y"] ++ inputFlags ["a.mp4", "b.mp4"] ++
        filterMapFlags [3, 4] 1 ++
        ["-c:v", "libx264", "-crf", "22", "-preset", "medium"] ++
        audioOutFlags "out.mp4" :=
  ⟨c6_software_fallback.1 ⟨true, none, .raised, .raised⟩ (by decide),
   (c6_software_fallback.2 initialHwConfig rfl).1,
   (c6_software_fallback.2 initialHwConfig rfl).2.2.2 ["a.mp4", "b.mp4"] [3, 4] 1
     "out.mp4"⟩

/-- Parameter names accepted by `create_motion_video_from_image`
(`app/services/motion.py` line 286): only the image URL and the duration. -/
def create_motion_video_params : List String := ["image_url", "duration"]

/-- Python call binding for keyword arguments: a call raises `TypeError`
unless every keyword argument names a declared parameter. -/
def kwargsAccepted (params kwargs : List String) : Bool :=
  kwargs.all fun k => params.contains k

/-- Keyword arguments of the fallback retry call
`create_motion_video_from_image(image_url, duration, motion_type="stable")`
(`app/services/video.py` lines 119-121 and 191-193). -/
def fallbackRetryKwargs : List String := ["motion_type"]

/-- Keyword arguments of the scripted primary render call
(`app/services/video.py` lines 107-112). -/
def scriptedRenderKwargs : List String := ["script", "voice"]

/-- Claim C7 (code bug): the fallback retry written in `create_simple_video`
passes the keyword argument `motion_type` (and the scripted primary call
passes `script` and `voice`) to `create_motion_video_from_image`, whose
parameter list accepts neither, so the retry raises `TypeError` instead of
rendering a stable-effect software-encoded clip. -/
theorem c7_retry_call_type_error :
    kwargsAccepted create_motion_video_params fallbackRetryKwargs = false ∧
    kwargsAccepted create_motion_video_params scriptedRenderKwargs = false := by
  decide

/-- Candidate motion effects listed in `create_motion_video_from_image`
(`app/services/motion.py` lines 313-323); `stable` is deliberately excluded
from the list. -/
def motion_types : List String :=
  ["zoom_in_center", "zoom_out_center", "pan_left_to_right",
   "pan_right_to_left", "pan_top_to_bottom", "pan_bottom_to_top",
   "zoom_and_pan_random", "slow_drift"]

/-- The motion effect actually selected for a clip of the given duration
(`app/services/motion.py` lines 325-326): the random choice is commented
out and the selection is the constant `slow_drift`. -/
def selected_motion_type (duration : ℚ) : String := "slow_drift"

/-- Claim C9 (amended): the effect selected for a clip is the hardcoded
`slow_drift` for every duration, a member of the candidate list; no
short-duration restriction of the effect set exists. -/
theorem c9_effect_selection (duration : ℚ) :
    selected_motion_type duration = "slow_drift" ∧
    selected_motion_type duration ∈ motion_types :=
  ⟨rfl, show "slow_drift" ∈ motion_types by decide⟩

/-- Counterexample to claim C9 as stated: for a 3-second clip (below the
5-second threshold) the selected effect is `slow_drift`, which is not in
the restricted set {stable, zoomIn, zoomOut}. -/
theorem c9_counterexample :
    (3 : ℚ) < 5 ∧ selected_motion_type 3 = "slow_drift" ∧
    selected_motion_type 3 ∉ ["stable", "zoom_in_center", "zoom_out_center"] := by
  refine ⟨by norm_num, rfl, by decide⟩

/-- Outcome of probing one clip with ffprobe (`app/services/video.py`
lines 216-242): the probe either raised (binary missing, or any other
exception) or completed with a return code and, when the JSON parse of its
stdout succeeds, a parsed duration. -/
inductive FfprobeOutcome where
  | raised : FfprobeOutcome
  | exited : ℤ → Option ℚ → FfprobeOutcome
deriving DecidableEq, Repr

/-- `get_video_duration` (`app/services/video.py` lines 206-242): a nonzero
return code, an unparsable stdout or any raised exception all yield the
fixed default of 5.0 seconds instead of raising. -/
def get_video_duration : FfprobeOutcome → ℚ
  | .raised => 5
  | .exited rc parsed =>
    if rc ≠ 0 then 5
    else
      match parsed with
      | some d => d
      | none => 5

/-- Whether the probe failed in any of the three ways. -/
def probeFailed : FfprobeOutcome → Bool
  | .raised => true
  | .exited rc parsed => (rc != 0) || parsed.isNone

/-- The duration-collection loop of `combine_videos_with_transitions`
(`app/services/video.py` lines 267-272): every clip contributes
`get_video_duration`, failures included. -/
def collect_durations (probes : List FfprobeOutcome) : List ℚ :=
  probes.map get_video_duration

/-- Claim C10: a failed probe yields the 5.0-second placeholder, the
collection loop silently records it in place, and the transition schedule is
computed from the placeholder exactly as if the clip were 5 seconds long,
with no abort. -/
theorem c10_probe_failure_placeholder (o : FfprobeOutcome)
    (h : probeFailed o = true) :
    get_video_duration o = 5 ∧
    ∀ (before after : List FfprobeOutcome) (t : ℚ),
      collect_durations (before ++ o :: after) =
        collect_durations before ++ 5 :: collect_durations after ∧
      combineTransitionSchedule t (collect_durations (before ++ o :: after)) =
        combineTransitionSchedule t
          (collect_durations before ++ 5 :: collect_durations after) := by
  have h5 : get_video_duration o = 5 := by
    rcases o with _ | ⟨rc, parsed⟩
    · rfl
    · simp only [probeFailed, Bool.or_eq_true, bne_iff_ne, Option.isNone_iff_eq_none] at h
      rcases h with hrc | hp
      · simp [get_video_duration, hrc]
      · rcases parsed with _ | d
        · by_cases hrc : rc = 0 <;> simp [get_video_duration, hrc]
        · simp at hp
  refine ⟨h5, ?_⟩
  intro before after t
  have hc : collect_durations (before ++ o :: after) =
      collect_durations before ++ 5 :: collect_durations after := by
    simp only [collect_durations, List.map_append, List.map_cons, h5]
  exact ⟨hc, by rw [hc]⟩

/-- Witness for claim C10: a probe that raised, placed between two
successful probes of 3 and 4 seconds. -/
theorem c10_probe_failure_placeholder_witness :
    get_video_duration .raised = 5 ∧
    collect_durations [.exited 0 (some 3), .raised, .exited 0 (some 4)] =
      collect_durations [.exited 0 (some 3)] ++
        5 :: collect_durations [.exited 0 (some 4)] ∧
    combineTransitionSchedule 1
        (collect_durations [.exited 0 (some 3), .raised, .exited 0 (some 4)]) =
      combineTransitionSchedule 1
        (collect_durations [.exited 0 (some 3)] ++
          5 :: collect_durations [.exited 0 (some 4)]) :=
  ⟨(c10_probe_failure_placeholder .raised rfl).1,
   ((c10_probe_failure_placeholder .raised rfl).2
      [.exited 0 (some 3)] [.exited 0 (some 4)] 1).1,
   ((c10_probe_failure_placeholder .raised rfl).2
      [.exited 0 (some 3)] [.exited 0 (some 4)] 1).2⟩

/-- Single-quote character used inside FFmpeg filter expressions. -/
def sq : String := String.singleton (Char.ofNat 39)

/-- Decimal rendering of an interpolated rational value. -/
def qs (q : ℚ) : String := toString q

/-- Decimal rendering of an interpolated natural value. -/
def ns (n : ℕ) : String := toString n

/-- Ambient state of the module-global `random` generator of
`app/utils/video_filters.py`, modelled as the stream of unit-interval draws
it will produce next. -/
abbrev RandState := List ℚ

/-- Consume one unit-interval draw from the ambient generator. -/
def randDraw (s : RandState) : ℚ × RandState := (s.headD 0, s.tail)

/-- `random.uniform(a, b)` on the ambient generator. -/
def random_uniform (a b : ℚ) (s : RandState) : ℚ × RandState :=
  let r := randDraw s
  (a + (b - a) * r.1, r.2)

/-- `random.choice([True, False])` on the ambient generator. -/
def random_choice_bool (s : RandState) : Bool × RandState :=
  let r := randDraw s
  (if r.1 < 1/2 then true else false, r.2)

/-- `random.randint(0, 3)` on the ambient generator. -/
def random_randint_0_3 (s : RandState) : ℕ × RandState :=
  let r := randDraw s
  let m := (Rat.floor (r.1 * 4)).toNat
  (if m ≤ 3 then m else 3, r.2)

/-- Common trailing zoompan parameters `d=...:s=1920x1080:fps=...`. -/
def zoompanTail (total_frames fps : ℕ) : String :=
  "d=" ++ ns total_frames ++ ":s=1920x1080:fps=" ++ ns fps

/-- `get_zoom_in_center_filter` (`app/utils/video_filters.py` lines 9-31). -/
def get_zoom_in_center_filter (total_frames fps : ℕ) (zoom_intensity : ℚ) :
    String :=
  let zi := pyMax (1/10) (pyMin 1 zoom_intensity)
  "zoompan=" ++
    "z=" ++ sq ++ "1+" ++ qs zi ++ "*(on/" ++ ns total_frames ++ ")" ++ sq ++ ":" ++
    "x=" ++ sq ++ "iw/2-(iw/zoom/2)" ++ sq ++ ":" ++
    "y=" ++ sq ++ "ih/2-(ih/zoom/2)" ++ sq ++ ":" ++
    zoompanTail total_frames fps

/-- `get_zoom_out_center_filter` (`app/utils/video_filters.py` lines 34-56). -/
def get_zoom_out_center_filter (total_frames fps : ℕ) (zoom_intensity : ℚ) :
    String :=
  let zi := pyMax (1/10) (pyMin 1 zoom_intensity)
  "zoompan=" ++
    "z=" ++ sq ++ "1+" ++ qs zi ++ "*(1 - (on/" ++ ns total_frames ++ "))" ++ sq ++ ":" ++
    "x=" ++ sq ++ "iw/2-(iw/zoom/2)" ++ sq ++ ":" ++
    "y=" ++ sq ++ "ih/2-(ih/zoom/2)" ++ sq ++ ":" ++
    zoompanTail total_frames fps

/-- `get_pan_horizontal_filter` (`app/utils/video_filters.py` lines 59-86). -/
def get_pan_horizontal_filter (total_frames fps : ℕ) (from_left : Bool)
    (zoom_factor : ℚ) : String :=
  let zf := pyMax 1 (pyMin (3/2) zoom_factor)
  let x_expr :=
    if from_left then "(iw*(on/" ++ ns total_frames ++ "))"
    else "(iw*(1 - on/" ++ ns total_frames ++ "))"
  "zoompan=" ++
    "z=" ++ sq ++ qs zf ++ sq ++ ":" ++
    "x=" ++ sq ++ "max(0, min(iw-(iw/zoom), " ++ x_expr ++ "))" ++ sq ++ ":" ++
    "y=" ++ sq ++ "ih/2-(ih/zoom/2)" ++ sq ++ ":" ++
    zoompanTail total_frames fps

/-- `get_pan_vertical_filter` (`app/utils/video_filters.py` lines 89-115). -/
def get_pan_vertical_filter (total_frames fps : ℕ) (from_top : Bool)
    (zoom_factor : ℚ) : String :=
  let zf := pyMax 1 (pyMin (3/2) zoom_factor)
  let y_expr :=
    if from_top then "(ih*(on/" ++ ns total_frames ++ "))"
    else "(ih*(1 - on/" ++ ns total_frames ++ "))"
  "zoompan=" ++
    "z=" ++ sq ++ qs zf ++ sq ++ ":" ++
    "x=" ++ sq ++ "iw/2-(iw/zoom/2)" ++ sq ++ ":" ++
    "y=" ++ sq ++ "max(0, min(ih-(ih/zoom), " ++ y_expr ++ "))" ++ sq ++ ":" ++
    zoompanTail total_frames fps

/-- `get_zoom_and_pan_random_filter`
(`app/utils/video_filters.py` lines 118-147): the four anchor coordinates
are drawn from the ambient module-global generator; the function declares no
seed or randomness-source parameter. -/
def get_zoom_and_pan_random_filter (total_frames fps : ℕ) (zoom_in : Bool)
    (s : RandState) : String × RandState :=
  let r1 := random_uniform 0 (7/10) s
  let r2 := random_uniform 0 (7/10) r1.2
  let r3 := random_uniform 0 (7/10) r2.2
  let r4 := random_uniform 0 (7/10) r3.2
  let start_x := r1.1
  let start_y := r2.1
  let end_x := r3.1
  let end_y := r4.1
  let z_expr :=
    if zoom_in then "1+0.5*(on/" ++ ns total_frames ++ ")"
    else "1.5-0.5*(on/" ++ ns total_frames ++ ")"
  ("zoompan=" ++
    "z=" ++ sq ++ z_expr ++ sq ++ ":" ++
    "x=" ++ sq ++ "(iw*" ++ qs start_x ++ ") + (iw*" ++ qs end_x ++ " - iw*" ++
      qs start_x ++ ")*(on/" ++ ns total_frames ++ ")" ++ sq ++ ":" ++
    "y=" ++ sq ++ "(ih*" ++ qs start_y ++ ") + (ih*" ++ qs end_y ++ " - ih*" ++
      qs start_y ++ ")*(on/" ++ ns total_frames ++ ")" ++ sq ++ ":" ++
    zoompanTail total_frames fps, r4.2)

/-- `get_slow_drift_filter` (`app/utils/video_filters.py` lines 150-173);
in this version both drift components equal the clamped intensity and no
random draw occurs. -/
def get_slow_drift_filter (total_frames fps : ℕ) (drift_intensity : ℚ) :
    String :=
  let di := pyMax (1/10) (pyMin (1/2) drift_intensity)
  "zoompan=" ++
    "z=" ++ sq ++ "1.1 + 0.1*(on/" ++ ns total_frames ++ ")" ++ sq ++ ":" ++
    "x=" ++ sq ++ "iw/2-(iw/zoom/2) + " ++ qs di ++ "*iw*(on/" ++
      ns total_frames ++ ")" ++ sq ++ ":" ++
    "y=" ++ sq ++ "ih/2-(ih/zoom/2) + " ++ qs di ++ "*ih*(on/" ++
      ns total_frames ++ ")" ++ sq ++ ":" ++
    zoompanTail total_frames fps

/-- `get_stable_center_filter` (`app/utils/video_filters.py` lines 176-198). -/
def get_stable_center_filter (total_frames fps : ℕ) (zoom_factor : ℚ) :
    String :=
  let zf := pyMax 1 (pyMin (3/2) zoom_factor)
  "zoompan=" ++
    "z=" ++ sq ++ qs zf ++ sq ++ ":" ++
    "x=" ++ sq ++ "iw/2-(iw/zoom/2)" ++ sq ++ ":" ++
    "y=" ++ sq ++ "ih/2-(ih/zoom/2)" ++ sq ++ ":" ++
    zoompanTail total_frames fps

/-- 16:9 letterboxing prefix shared by the enhanced filters
(`app/utils/video_filters.py` lines 222, 252, 277). -/
def padPrefix : String :=
  "scale=1920:1080:force_original_aspect_ratio=decrease,pad=1920:1080:(ow-iw)/2:(oh-ih)/2:color=black"

/-- `get_zoom_rotate_filter` (`app/utils/video_filters.py` lines 201-232). -/
def get_zoom_rotate_filter (total_frames fps : ℕ)
    (zoom_intensity rotate_intensity : ℚ) : String :=
  let zi := pyMax (1/10) (pyMin 1 zoom_intensity)
  let ri := pyMax 1 (pyMin 10 rotate_intensity)
  padPrefix ++ "," ++
    "zoompan=" ++
    "z=" ++ sq ++ "1+" ++ qs zi ++ "*(on/" ++ ns total_frames ++ ")" ++ sq ++ ":" ++
    "x=" ++ sq ++ "iw/2-(iw/zoom/2)" ++ sq ++ ":" ++
    "y=" ++ sq ++ "ih/2-(ih/zoom/2)" ++ sq ++ ":" ++
    zoompanTail total_frames fps ++ "," ++
    "rotate=" ++ sq ++ "(PI/180)*" ++ qs ri ++ "*sin(2*PI*on/" ++
      ns total_frames ++ ")" ++ sq ++ ":ow=iw:oh=ih"

/-- `get_pulse_zoom_filter` (`app/utils/video_filters.py` lines 235-261). -/
def get_pulse_zoom_filter (total_frames fps : ℕ) (zoom_intensity : ℚ)
    (pulses : ℕ) : String :=
  let zi := pyMax (1/10) (pyMin (1/2) zoom_intensity)
  let p := if pulses ≤ 1 then 1 else pulses
  padPrefix ++ "," ++
    "zoompan=" ++
    "z=" ++ sq ++ "1+" ++ qs zi ++ "*sin(2*PI*" ++ ns p ++ "*on/" ++
      ns total_frames ++ ")" ++ sq ++ ":" ++
    "x=" ++ sq ++ "iw/2-(iw/zoom/2)" ++ sq ++ ":" ++
    "y=" ++ sq ++ "ih/2-(ih/zoom/2)" ++ sq ++ ":" ++
    zoompanTail total_frames fps

/-- `get_bounce_filter` (`app/utils/video_filters.py` lines 264-286). -/
def get_bounce_filter (total_frames fps : ℕ) (zoom_intensity : ℚ) : String :=
  let zi := pyMax (1/10) (pyMin 1 zoom_intensity)
  padPrefix ++ "," ++
    "zoompan=" ++
    "z=" ++ sq ++ "1+" ++ qs zi ++ "*(1-abs(2*(on/" ++ ns total_frames ++
      ")-1))" ++ sq ++ ":" ++
    "x=" ++ sq ++ "iw/2-(iw/zoom/2)" ++ sq ++ ":" ++
    "y=" ++ sq ++ "ih/2-(ih/zoom/2)" ++ sq ++ ":" ++
    zoompanTail total_frames fps

/-- Bicubic letterboxing prefix of the slow Ken Burns filter
(`app/utils/video_filters.py` line 335). -/
def padPrefixBicubic : String :=
  "scale=1920:1080:force_original_aspect_ratio=decrease:flags=bicubic,pad=1920:1080:(ow-iw)/2:(oh-ih)/2:color=black"

/-- `get_ken_burns_slow_filter` (`app/utils/video_filters.py`
lines 289-347): the pan direction and four jitter offsets are drawn from the
ambient module-global generator; no seed parameter is declared. -/
def get_ken_burns_slow_filter (total_frames fps : ℕ) (zoom_intensity : ℚ)
    (s : RandState) : String × RandState :=
  let zi := pyMax 0 (pyMin (3/10) zoom_intensity)
  let rdir := random_randint_0_3 s
  let corners : ℚ × ℚ × ℚ × ℚ :=
    if rdir.1 = 0 then (1/20, 1/20, 19/20, 19/20)
    else if rdir.1 = 1 then (19/20, 1/20, 1/20, 19/20)
    else if rdir.1 = 2 then (1/20, 19/20, 19/20, 1/20)
    else (19/20, 19/20, 1/20, 1/20)
  let j1 := random_uniform (-(3/100)) (3/100) rdir.2
  let j2 := random_uniform (-(3/100)) (3/100) j1.2
  let j3 := random_uniform (-(3/100)) (3/100) j2.2
  let j4 := random_uniform (-(3/100)) (3/100) j3.2
  let start_x := pyMax 0 (pyMin 1 (corners.1 + j1.1))
  let start_y := pyMax 0 (pyMin 1 (corners.2.1 + j2.1))
  let end_x := pyMax 0 (pyMin 1 (corners.2.2.1 + j3.1))
  let end_y := pyMax 0 (pyMin 1 (corners.2.2.2 + j4.1))
  let t := ns total_frames
  (padPrefixBicubic ++ "," ++
    "zoompan=" ++
    "z=" ++ sq ++ "1+" ++ qs zi ++ "*(3*(on/" ++ t ++ ")*(on/" ++ t ++
      ") - 2*(on/" ++ t ++ ")*(on/" ++ t ++ ")*(on/" ++ t ++ "))" ++ sq ++ ":" ++
    "x=" ++ sq ++ "(iw*" ++ qs start_x ++ ")*(1-on/" ++ t ++ ") + (iw*" ++
      qs end_x ++ ")*(on/" ++ t ++ ") - (iw/zoom/2) + (iw/2)" ++ sq ++ ":" ++
    "y=" ++ sq ++ "(ih*" ++ qs start_y ++ ")*(1-on/" ++ t ++ ") + (ih*" ++
      qs end_y ++ ")*(on/" ++ t ++ ") - (ih/zoom/2) + (ih/2)" ++ sq ++ ":" ++
    zoompanTail total_frames fps, j4.2)

/-- `get_motion_filter` (`app/utils/video_filters.py` lines 350-394): the
dictionary literal evaluates every entry eagerly, so each call consumes the
ambient draws of `random.choice`, `get_zoom_and_pan_random_filter` and
`get_ken_burns_slow_filter` in that order regardless of the requested
motion type; unknown types degrade to `stable`, and fps above 30 appends a
frame-blending post-filter. -/
def get_motion_filter (motion_type : String) (total_frames fps : ℕ)
    (s : RandState) : String × RandState :=
  let zin := get_zoom_in_center_filter total_frames fps (1/2)
  let zout := get_zoom_out_center_filter total_frames fps (1/2)
  let pl := get_pan_horizontal_filter total_frames fps true (6/5)
  let pr := get_pan_horizontal_filter total_frames fps false (6/5)
  let pt := get_pan_vertical_filter total_frames fps true (6/5)
  let pb := get_pan_vertical_filter total_frames fps false (6/5)
  let rc := random_choice_bool s
  let rzap := get_zoom_and_pan_random_filter total_frames fps rc.1 rc.2
  let drift := get_slow_drift_filter total_frames fps (1/5)
  let stable := get_stable_center_filter total_frames fps (11/10)
  let zr := get_zoom_rotate_filter total_frames fps (3/10) 5
  let pz := get_pulse_zoom_filter total_frames fps (1/5) 2
  let bounce := get_bounce_filter total_frames fps (3/10)
  let rkb := get_ken_burns_slow_filter total_frames fps (1/10) rzap.2
  let base :=
    if motion_type = "zoom_in_center" then zin
    else if motion_type = "zoom_out_center" then zout
    else if motion_type = "pan_left_to_right" then pl
    else if motion_type = "pan_right_to_left" then pr
    else if motion_type = "pan_top_to_bottom" then pt
    else if motion_type = "pan_bottom_to_top" then pb
    else if motion_type = "zoom_and_pan_random" then rzap.1
    else if motion_type = "slow_drift" then drift
    else if motion_type = "stable" then stable
    else if motion_type = "zoom_rotate" then zr
    else if motion_type = "pulse_zoom" then pz
    else if motion_type = "bounce" then bounce
    else if motion_type = "ken_burns_slow" then rkb.1
    else stable
  (if 30 < fps then base ++ ",tblend=all_mode=average" else base, rkb.2)

/-- Claim C8 (amended): the generator is deterministic as a function of the
effect kind, frame count, fps and the ambient state of the module-global
generator: two calls started from equal ambient states return identical
expression strings. The randomized effects draw from the module-global
generator and accept no injected randomness source. -/
theorem c8_deterministic_given_state (motion_type : String)
    (total_frames fps : ℕ) (s₁ s₂ : RandState) (h : s₁ = s₂) :
    (get_motion_filter motion_type total_frames fps s₁).1 =
      (get_motion_filter motion_type total_frames fps s₂).1 := by
  rw [h]

/-- Witness for claim C8: the concrete randomised effect at 90 frames and
30 fps from the all-zero ambient stream. -/
theorem c8_deterministic_given_state_witness :
    (get_motion_filter "zoom_and_pan_random" 90 30 (List.replicate 10 0)).1 =
      (get_motion_filter "zoom_and_pan_random" 90 30 (List.replicate 10 0)).1 :=
  c8_deterministic_given_state "zoom_and_pan_random" 90 30
    (List.replicate 10 0) (List.replicate 10 0) rfl

/-- Counterexample to claim C8 as stated: two successive calls with the same
(effectKind, frameCount, fps) arguments — the second starting from the
ambient state the first left behind, as happens in the program, because no
seed can be passed — return different expression strings. -/
theorem c8_counterexample :
    (get_motion_filter "zoom_and_pan_random" 90 30
        (List.replicate 10 0 ++ List.replicate 10 (1/2))).1 ≠
      (get_motion_filter "zoom_and_pan_random" 90 30
        (get_motion_filter "zoom_and_pan_random" 90 30
          (List.replicate 10 0 ++ List.replicate 10 (1/2))).2).1 := by
  with_unfolding_all decide

end VisionForge
